import Mathlib

/-!
Verification development for the goflow execution substrate.

This file shallowly embeds the parts of the code base that the checked
properties are about: the Excellent value system and conversions, a group of
built-in functions (if, default, word_slice, datetime_from_parts,
datetime_diff, format_number), the legacy expression migrator's variable
mappers, the timeout wait, and the set_contact_channel action.

Machine integers of the source are modelled as Lean Int (the source uses
64-bit values far from overflow on all inputs considered here); the
shopspring arbitrary-precision decimals are modelled exactly as a mantissa
and a base-10 exponent; Go time.Time values are modelled as an instant in
nanoseconds since the Unix epoch together with a fixed zone offset in
seconds.  Definitions translated from files that are present in the
repository snapshot follow those files; definitions for code of the
repository that the snapshot does not contain are marked
"Modelled from the spec:" in their doc comment.
-/

/-! ## Basic helpers -/

/-- Powers of ten as integers. -/
def pow10 : Nat → Int
  | 0 => 1
  | n + 1 => 10 * pow10 n

/-- ASCII lowercase of one character, modelling strings.ToLower on the
alphabets that the code compares against. -/
def charLower (c : Char) : Char := c.toLower

/-- Modelled from the spec: strings.ToLower of the Go standard library,
restricted to ASCII case mapping (the strings compared against are ASCII). -/
def strToLower (s : String) : String := String.mk (s.data.map charLower)

/-- strings.Join with a separator, as in the Go standard library. -/
def strJoin (sep : String) : List String → String
  | [] => ""
  | [x] => x
  | x :: y :: rest => x ++ sep ++ strJoin sep (y :: rest)

/-- Left-pad a string with zero characters up to the given width. -/
def padZeros (width : Nat) (s : String) : String :=
  String.mk (List.replicate (width - s.length) '0') ++ s

/-- The number denoted by a list of decimal digit characters. -/
def digitsToNat (l : List Char) : Nat :=
  l.foldl (fun acc c => 10 * acc + (c.toNat - 48)) 0

/-- Collects the maximal runs of characters satisfying p, left to right; the
accumulator holds the current run reversed. -/
def tokensAux (p : Char → Bool) : List Char → List Char → List String
  | [], acc => if acc.isEmpty then [] else [String.mk acc.reverse]
  | c :: rest, acc =>
    if p c then tokensAux p rest (c :: acc)
    else if acc.isEmpty then tokensAux p rest []
    else String.mk acc.reverse :: tokensAux p rest []

/-- A word character of the tokenizer: letter, digit or underscore. -/
def isWordChar (c : Char) : Bool := c.isAlphanum || c == '_'

/-- Modelled from the spec: utils.TokenizeString, which splits text into the
maximal runs of letters and digits (word functions operate on these words). -/
def tokenizeString (s : String) : List String :=
  tokensAux (fun c => c.isAlphanum) s.data []

/-! ## Civil calendar arithmetic

Days-from-civil-date and its inverse, matching the normalization performed by
the Go time package: time.Date first brings the month into 1..12 carrying
into the year, then counts days from the first of that month, so an
out-of-range day rolls over into the following months. -/

/-- A civil calendar date. -/
structure CivilDate where
  year : Int
  month : Int
  day : Int
deriving DecidableEq, Repr

/-- Number of days from 1970-01-01 to the civil date y-m-d (month in 1..12;
the day may be out of range and then counts on from the first of the month,
exactly as the day term of Go time.Date does). -/
def daysFromCivil (y m d : Int) : Int :=
  let yAdj := if m ≤ 2 then y - 1 else y
  let era := Int.fdiv yAdj 400
  let yoe := yAdj - era * 400
  let mp := if m > 2 then m - 3 else m + 9
  let doy := Int.fdiv (153 * mp + 2) 5 + d - 1
  let doe := yoe * 365 + Int.fdiv yoe 4 - Int.fdiv yoe 100 + doy
  era * 146097 + doe - 719468

/-- The civil date that lies the given number of days after 1970-01-01. -/
def civilFromDays (z0 : Int) : CivilDate :=
  let z := z0 + 719468
  let era := Int.fdiv z 146097
  let doe := z - era * 146097
  let yoe := Int.fdiv (doe - Int.fdiv doe 1460 + Int.fdiv doe 36524 - Int.fdiv doe 146096) 365
  let y := yoe + era * 400
  let doy := doe - (365 * yoe + Int.fdiv yoe 4 - Int.fdiv yoe 100)
  let mp := Int.fdiv (5 * doy + 2) 153
  let d := doy - Int.fdiv (153 * mp + 2) 5 + 1
  let m := if mp < 10 then mp + 3 else mp - 9
  ⟨if m ≤ 2 then y + 1 else y, m, d⟩

/-! ## Time values -/

def nsPerSecond : Int := 1000000000

def nsPerMinute : Int := 60 * nsPerSecond

def nsPerHour : Int := 60 * nsPerMinute

def nsPerDay : Int := 24 * nsPerHour

/-- A Go time.Time: an instant (nanoseconds since the Unix epoch, UTC)
together with its zone offset in seconds east of UTC. -/
structure GoTime where
  instantNs : Int
  offsetSecs : Int
deriving DecidableEq, Repr

/-- Nanoseconds since the epoch on the local (zone-shifted) clock. -/
def GoTime.localNs (t : GoTime) : Int := t.instantNs + t.offsetSecs * nsPerSecond

/-- The local civil day number (days since 1970-01-01 of the local date). -/
def GoTime.localDay (t : GoTime) : Int := Int.fdiv t.localNs nsPerDay

/-- The local civil date of the instant. -/
def GoTime.civil (t : GoTime) : CivilDate := civilFromDays t.localDay

/-- time.Time.Year in the value's location. -/
def GoTime.year (t : GoTime) : Int := t.civil.year

/-- time.Time.Month in the value's location. -/
def GoTime.month (t : GoTime) : Int := t.civil.month

/-- time.Time.Sub: the duration between two instants in nanoseconds. -/
def GoTime.sub (a b : GoTime) : Int := a.instantNs - b.instantNs

/-- Go time.Date: builds an instant from civil components in a fixed-offset
location, normalizing out-of-range components (month carries into the year,
and the day counts on from the first of the month). -/
def timeDate (year month day hour minute second nsec offsetSecs : Int) : GoTime :=
  let m0 := month - 1
  let yN := year + Int.fdiv m0 12
  let mN := Int.fmod m0 12 + 1
  let days := daysFromCivil yN mN 1 + (day - 1)
  let localNs := (days * 86400 + hour * 3600 + minute * 60 + second) * nsPerSecond + nsec
  ⟨localNs - offsetSecs * nsPerSecond, offsetSecs⟩

/-- The part of utils.Environment that the considered functions consult: the
timezone, modelled as a fixed offset in seconds east of UTC. -/
structure Environment where
  tzOffsetSecs : Int
deriving DecidableEq, Repr

/-- The environment of the spec's examples (America/Guayaquil, UTC-5). -/
def defaultEnv : Environment := ⟨-18000⟩

/-! ## Decimals

The shopspring decimal type used by the source: an arbitrary-precision
integer mantissa and a base-10 exponent, with value mant * 10 ^ exp. -/

structure Decimal where
  mant : Int
  exp : Int
deriving DecidableEq, Repr

/-- decimal.New(n, 0): the decimal of an integer. -/
def Decimal.fromInt (n : Int) : Decimal := ⟨n, 0⟩

/-- The mantissa the decimal has after lowering its exponent to e (e must be
at most the decimal's exponent). -/
def Decimal.rescaleMant (d : Decimal) (e : Int) : Int :=
  d.mant * pow10 (d.exp - e).toNat

/-- Decimal addition (align to the smaller exponent, add mantissas). -/
def Decimal.add (a b : Decimal) : Decimal :=
  let e := min a.exp b.exp
  ⟨a.rescaleMant e + b.rescaleMant e, e⟩

/-- Decimal negation. -/
def Decimal.neg (a : Decimal) : Decimal := ⟨-a.mant, a.exp⟩

/-- Decimal subtraction. -/
def Decimal.sub (a b : Decimal) : Decimal := a.add b.neg

/-- Decimal comparison: a is at most b. -/
def Decimal.ble (a b : Decimal) : Bool :=
  let e := min a.exp b.exp
  a.rescaleMant e ≤ b.rescaleMant e

/-- decimal IntPart: the integer part, truncated toward zero. -/
def Decimal.intPart (d : Decimal) : Int :=
  if 0 ≤ d.exp then d.mant * pow10 d.exp.toNat
  else Int.tdiv d.mant (pow10 (-d.exp).toNat)

/-- The greatest integer at most the decimal's value. -/
def Decimal.floorInt (d : Decimal) : Int :=
  if 0 ≤ d.exp then d.mant * pow10 d.exp.toNat
  else Int.fdiv d.mant (pow10 (-d.exp).toNat)

/-- Whether the decimal's value is zero. -/
def Decimal.isZero (d : Decimal) : Bool := d.mant == 0

/-- Exact decimal rendering (sign, integer digits, then the fractional digits
when the exponent is negative), modelling decimal.String on the values the
embedded code prints. -/
def Decimal.toStr (d : Decimal) : String :=
  if 0 ≤ d.exp then toString (d.mant * pow10 d.exp.toNat)
  else
    let scale := (pow10 (-d.exp).toNat).natAbs
    let a := d.mant.natAbs
    (if d.mant < 0 then "-" else "") ++
      toString (a / scale) ++ "." ++ padZeros (-d.exp).toNat (toString (a % scale))

/-! ## The Excellent value system -/

/-- The tagged value variants of the Excellent language (types.XValue):
text, number, boolean, datetime, array, error and nil.  Object values do not
occur in any considered claim and are omitted. -/
inductive XValue where
  | text (s : String)
  | num (d : Decimal)
  | bool (b : Bool)
  | dt (t : GoTime)
  | arr (xs : List XValue)
  | err (msg : String)
  | nil

/-- types.IsXError: whether a value is an error value. -/
def isXError : XValue → Bool
  | .err _ => true
  | _ => false

/-- Modelled from the spec: types.IsEmpty — nil is empty, and so is any
value with a length of zero (text and arrays are the values with length). -/
def isEmpty : XValue → Bool
  | .nil => true
  | .text s => s == ""
  | .arr xs => xs.isEmpty
  | _ => false

/-- XText.ToXBoolean from excellent/types/text.go: a text is truthy unless
it is empty or equals "false" ignoring case. -/
def XText.toXBoolean (s : String) : Bool :=
  !(s == "") && !(strToLower s == "false")

/-- Modelled from the spec: the digits-and-optional-point case of
decimal.NewFromString, used when converting text to a number. -/
def parseDecimal (s : String) : Option Decimal :=
  let (sign, rest) :=
    match s.data with
    | '-' :: cs => ((-1 : Int), cs)
    | '+' :: cs => ((1 : Int), cs)
    | cs => ((1 : Int), cs)
  let intDigits := rest.takeWhile (fun c => c.isDigit)
  let rest2 := rest.drop intDigits.length
  match rest2 with
  | [] =>
    if intDigits.isEmpty then none
    else some ⟨sign * digitsToNat intDigits, 0⟩
  | '.' :: fracPart =>
    if fracPart.all (fun c => c.isDigit) && !(intDigits.isEmpty && fracPart.isEmpty) then
      some ⟨sign * (digitsToNat intDigits * pow10 fracPart.length +
        (digitsToNat fracPart : Int)), -(fracPart.length : Int)⟩
    else none
  | _ => none

/-- ToXText (excellent/types/text.go): nil becomes empty text, an error
propagates, and every other value reduces to its text form.  The per-type
reductions other than text itself are modelled from the spec. -/
def toXText : XValue → Except String String
  | .nil => .ok ""
  | .err m => .error m
  | .text s => .ok s
  | .num d => .ok d.toStr
  | .bool b => .ok (if b then "true" else "false")
  | .dt t => .ok (toString t.civil.year ++ "-" ++ toString t.civil.month ++ "-" ++ toString t.civil.day)
  | .arr _ => .error "unable to convert an array to text"

/-- Modelled from the spec: types.ToXBoolean — errors propagate, nil is
false, and each value reduces to a boolean; the text rule is
XText.ToXBoolean from excellent/types/text.go. -/
def toXBoolean : XValue → Except String Bool
  | .err m => .error m
  | .nil => .ok false
  | .text s => .ok (XText.toXBoolean s)
  | .num d => .ok (!d.isZero)
  | .bool b => .ok b
  | .dt _ => .ok true
  | .arr xs => .ok (!xs.isEmpty)

/-- Modelled from the spec: types.ToXNumber — errors propagate, nil reduces
to zero, numbers are kept and text is parsed as a decimal; other values do
not convert and yield an error value. -/
def toXNumber : XValue → Except String Decimal
  | .err m => .error m
  | .nil => .ok ⟨0, 0⟩
  | .num d => .ok d
  | .text s =>
    match parseDecimal s with
    | some d => .ok d
    | none => .error ("unable to convert value '" ++ s ++ "' to a number")
  | .bool _ => .error "unable to convert a boolean to a number"
  | .dt _ => .error "unable to convert a datetime to a number"
  | .arr _ => .error "unable to convert an array to a number"

/-- Modelled from the spec: types.ToInteger — convert to a number and take
the integer part (truncation toward zero). -/
def toInteger (v : XValue) : Except String Int :=
  match toXNumber v with
  | .error m => .error m
  | .ok d => .ok d.intPart

/-- Strict ISO date parsing, digit counts 4-2-2 with dashes. -/
def parseISODate (s : String) : Option (Int × Int × Int) :=
  match s.data with
  | [y1, y2, y3, y4, '-', m1, m2, '-', d1, d2] =>
    if [y1, y2, y3, y4, m1, m2, d1, d2].all (fun c => c.isDigit) then
      some ((digitsToNat [y1, y2, y3, y4] : Int), (digitsToNat [m1, m2] : Int),
        (digitsToNat [d1, d2] : Int))
    else none
  | _ => none

/-- Modelled from the spec: the ISO year-month-day case of
utils.DateFromString — the date at midnight in the environment timezone. -/
def dateFromString (env : Environment) (s : String) : Option GoTime :=
  match parseISODate s with
  | some (y, m, d) => some (timeDate y m d 0 0 0 0 env.tzOffsetSecs)
  | none => none

/-- Modelled from the spec: types.ToXDateTime — errors propagate, datetimes
are kept, text is parsed as a date, and other values yield an error value. -/
def toXDateTime (env : Environment) : XValue → Except String GoTime
  | .err m => .error m
  | .dt t => .ok t
  | .text s =>
    match dateFromString env s with
    | some t => .ok t
    | none => .error ("unable to convert value '" ++ s ++ "' to a datetime")
  | _ => .error "unable to convert value to a datetime"

/-! ## Built-in functions (excellent/functions)

Each embedded function keeps its source name.  Functions registered through
argument-count adapters take the raw argument list; the adapters
(ArgCountCheck and friends) are modelled from the spec as pure arity checks,
while each function body follows the source. -/

/-- If from the function registry: the test converts to a boolean (an error
in the test propagates), and the matching branch is returned unchanged. -/
def If (_env : Environment) (test arg1 arg2 : XValue) : XValue :=
  match toXBoolean test with
  | .error m => .err m
  | .ok b => if b then arg1 else arg2

/-- Default from the function registry: the fallback is returned when the
test is empty or an error, otherwise the test is returned unchanged. -/
def Default (_env : Environment) (test def_ : XValue) : XValue :=
  if isEmpty test || isXError test then def_ else test

/-- WordSlice from the function registry (registered under ArgCountCheck 2 3):
extracts the words from start up to but not including end; end defaults to -1
when absent, and a non-positive end takes all words from start on. -/
def WordSlice (_env : Environment) (args : List XValue) : XValue :=
  if args.length < 2 ∨ 3 < args.length then
    .err ("takes 2 to 3 arguments, got " ++ toString args.length)
  else
    match toXText (args.getD 0 .nil) with
    | .error m => .err m
    | .ok str =>
      match toInteger (args.getD 1 .nil) with
      | .error m => .err m
      | .ok start =>
        if start < 0 then .err "must start with a positive index"
        else
          let endRes : Except String Int :=
            if args.length = 3 then toInteger (args.getD 2 .nil) else .ok (-1)
          match endRes with
          | .error m => .err m
          | .ok en =>
            if en > 0 ∧ en ≤ start then
              .err "must have a end which is greater than the start"
            else
              let words := tokenizeString str
              if (words.length : Int) ≤ start then .text ""
              else
                let en := if (words.length : Int) ≤ en then (words.length : Int) else en
                if en > 0 then
                  .text (strJoin " " ((words.drop start.toNat).take (en - start).toNat))
                else .text (strJoin " " (words.drop start.toNat))

/-- DateTimeFromParts from the function registry (registered under
ArgCountCheck 3 3): builds the date year-month-day at midnight in the
environment timezone; the month must lie in 1..12, while any day value is
accepted and normalized by Go time.Date. -/
def DateTimeFromParts (env : Environment) (args : List XValue) : XValue :=
  if args.length ≠ 3 then
    .err ("takes 3 arguments, got " ++ toString args.length)
  else
    match toInteger (args.getD 0 .nil) with
    | .error m => .err m
    | .ok year =>
      match toInteger (args.getD 1 .nil) with
      | .error m => .err m
      | .ok month =>
        if month < 1 ∨ 12 < month then .err "invalid value for month, must be 1-12"
        else
          match toInteger (args.getD 2 .nil) with
          | .error m => .err m
          | .ok day => .dt (timeDate year month day 0 0 0 0 env.tzOffsetSecs)

/-- Modelled from the spec: utils.DaysBetween — the number of calendar days
between the two dates, independent of the time of day (the difference of the
local civil day numbers). -/
def DaysBetween (a b : GoTime) : Int := a.localDay - b.localDay

/-- Modelled from the spec: utils.MonthsBetween — the calendar count of
months between the two dates (difference of month indices plus twelve per
calendar year). -/
def MonthsBetween (a b : GoTime) : Int :=
  (a.month - b.month) + (a.year - b.year) * 12

/-- DateTimeDiff from the function registry: the integer duration between two
datetimes in the requested unit; seconds, minutes and hours divide the
nanosecond duration with Go integer division (truncation toward zero), days
and weeks count civil days, months and years are calendar counts. -/
def DateTimeDiff (env : Environment) (args : List XValue) : XValue :=
  if args.length ≠ 3 then
    .err ("takes exactly three arguments, received " ++ toString args.length)
  else
    match toXDateTime env (args.getD 0 .nil) with
    | .error m => .err m
    | .ok date1 =>
      match toXDateTime env (args.getD 1 .nil) with
      | .error m => .err m
      | .ok date2 =>
        match toXText (args.getD 2 .nil) with
        | .error m => .err m
        | .ok unit =>
          let duration := date1.sub date2
          if unit == "s" then .num (Decimal.fromInt (Int.tdiv duration nsPerSecond))
          else if unit == "m" then .num (Decimal.fromInt (Int.tdiv duration nsPerMinute))
          else if unit == "h" then .num (Decimal.fromInt (Int.tdiv duration nsPerHour))
          else if unit == "D" then .num (Decimal.fromInt (DaysBetween date1 date2))
          else if unit == "W" then .num (Decimal.fromInt (Int.tdiv (DaysBetween date1 date2) 7))
          else if unit == "M" then .num (Decimal.fromInt (MonthsBetween date1 date2))
          else if unit == "Y" then .num (Decimal.fromInt (date1.year - date2.year))
          else .err ("unknown unit: " ++ unit ++ ", must be one of s, m, h, D, W, M, Y")

/-! ## Number formatting (the humanize library used by FormatNumber) -/

/-- Inserts the thousands separator every three digits from the right, as the
separator loop of humanize.RenderFloat does; the fuel argument, the length of
the digit list, bounds the recursion (each step removes three digits). -/
def insertThousandsAux (sep : List Char) : Nat → List Char → List Char
  | 0, s => s
  | fuel + 1, s =>
    if s.length ≤ 3 then s
    else insertThousandsAux sep fuel (s.take (s.length - 3)) ++ sep ++ s.drop (s.length - 3)

/-- String face of the thousands-separator insertion; a separator of length
zero leaves the digits unchanged, as in the source. -/
def insertThousands (sep : String) (s : String) : String :=
  if sep.length > 0 then String.mk (insertThousandsAux sep.data s.data.length s.data) else s

/-- Parses a RenderFloat format string into precision, thousands separator,
decimal separator and positive-sign prefix.  none models the two panic
branches of the source (misplaced sign directive, thousands separator not
followed by three digit specifiers). -/
def parseRenderFormat (format : String) : Option (Nat × String × String × String) :=
  if format.length == 0 then some (2, ",", ".", "")
  else
    let chars := format.data
    let idxs := ((chars.enum.filter (fun ic => ic.2 ≠ '#' ∧ ic.2 ≠ '0')).map (fun ic => ic.1))
    let step1 : Option (String × List Nat) :=
      match idxs with
      | 0 :: restIdx => if chars.getD 0 'x' == '+' then some ("+", restIdx) else none
      | _ => some ("", idxs)
    match step1 with
    | none => none
    | some (positiveStr, idxs1) =>
      let step2 : Option (String × List Nat) :=
        if idxs1.length == 2 then
          if idxs1.getD 1 0 - idxs1.getD 0 0 == 4 then
            some (String.mk [chars.getD (idxs1.getD 0 0) 'x'], idxs1.drop 1)
          else none
        else some ("", idxs1)
      match step2 with
      | none => none
      | some (thousandStr, idxs2) =>
        if idxs2.length == 1 then
          some (format.length - idxs2.getD 0 0 - 1,
            thousandStr, String.mk [chars.getD (idxs2.getD 0 0) 'x'], positiveStr)
        else some (9, thousandStr, ".", positiveStr)

/-- humanize.FormatFloat (RenderFloat) transposed to exact decimals: parse
the format, fold tiny magnitudes to zero, add half a unit in the last wanted
place, then print the integer digits with separators and the wanted number of
fractional digits.  The source computes on float64; the model computes the
same algorithm exactly. -/
def renderFloat (format : String) (n : Decimal) : String :=
  match parseRenderFormat format with
  | none => ""
  | some (precision, thousandStr, decimalStr, positiveStr) =>
    let tiny : Decimal := ⟨1, -9⟩
    let (signStr, nAbs) :=
      if tiny.ble n then (positiveStr, n)
      else if n.ble tiny.neg then ("-", n.neg)
      else ("", (⟨0, 0⟩ : Decimal))
    let rounded := nAbs.add ⟨5, -((precision : Int) + 1)⟩
    let intf := rounded.floorInt
    let fracf := rounded.sub (Decimal.fromInt intf)
    let intStr := insertThousands thousandStr (toString intf)
    if precision == 0 then signStr ++ intStr
    else
      let fracInt := (Decimal.mk fracf.mant (fracf.exp + precision)).floorInt
      signStr ++ intStr ++ decimalStr ++ padZeros precision (toString fracInt)

/-- FormatNumber from the function registry: formats a number with the
requested number of decimal places (default 2, allowed 0..9) and optional
thousands separators (default on).  The float64 detour of the source is exact
on the magnitudes considered. -/
def FormatNumber (_env : Environment) (args : List XValue) : XValue :=
  if args.length < 1 ∨ 3 < args.length then
    .err ("takes 1 to 3 arguments, got " ++ toString args.length)
  else
    match toXNumber (args.getD 0 .nil) with
    | .error m => .err m
    | .ok num =>
      let placesRes : Except String Int :=
        if args.length > 1 then toInteger (args.getD 1 .nil) else .ok 2
      match placesRes with
      | .error m => .err m
      | .ok places =>
        if args.length > 1 ∧ (places < 0 ∨ 9 < places) then
          .err ("must take 0-9 number of places, got " ++ toString places)
        else
          let commasRes : Except String Bool :=
            if args.length > 2 then toXBoolean (args.getD 2 .nil) else .ok true
          match commasRes with
          | .error m => .err m
          | .ok commas =>
            let formatStr := (if commas then "#,###." else "####.") ++
              String.mk (List.replicate places.toNat '#')
            .text (renderFloat formatStr num)

/-! ## Legacy migrator variable mappers (legacy/expressions)

The mapper tree of the legacy migrator: values held under a mapper's keys are
plain strings, nested variable mappers, or the special extra mapper.  A
varMapper carries total substitutions, a base path, recognized fixed
sub-keys, an arbitrary-nesting segment and the mapper data reused for
arbitrary children (always plain strings in the program). -/

/-- The three migration modes for legacy extra references. -/
inductive ExtraVarsMapping where
  | webhookJSON
  | triggerParams
  | function
deriving DecidableEq, Repr

mutual

inductive MigValue where
  | str (s : String)
  | vm (m : VarMapper)
  | em (extraAs : ExtraVarsMapping) (path : String)

inductive VarMapper where
  | mk (substitutions : List (String × String)) (base : String)
      (baseVars : List (String × MigValue)) (arbitraryNesting : String)
      (arbitraryVars : Option (List (String × String)))

end

def VarMapper.substitutions : VarMapper → List (String × String)
  | .mk s _ _ _ _ => s

def VarMapper.base : VarMapper → String
  | .mk _ b _ _ _ => b

def VarMapper.baseVars : VarMapper → List (String × MigValue)
  | .mk _ _ v _ _ => v

def VarMapper.arbitraryNesting : VarMapper → String
  | .mk _ _ _ n _ => n

def VarMapper.arbitraryVars : VarMapper → Option (List (String × String))
  | .mk _ _ _ _ a => a

/-- The result of one resolution step (the interface value returned by a
Resolve method): a rewritten string, a varMapper, or the extra mapper. -/
inductive Resolved where
  | str (s : String)
  | vm (m : VarMapper)
  | em (extraAs : ExtraVarsMapping) (path : String)

/-- varMapper.rebase: a copy of the mapper with a prefix put before its
base. -/
def VarMapper.rebase (v : VarMapper) (pre : String) : VarMapper :=
  let newBase := if pre ≠ "" then pre ++ "." ++ v.base else v.base
  ⟨v.substitutions, newBase, v.baseVars, v.arbitraryNesting, v.arbitraryVars⟩

/-- varMapper.Resolve: lowercase the key, try the total substitutions, then
the fixed sub-keys (rebasing a found sub-mapper under the current base, and
passing the extra mapper through), and fall back to the arbitrary-nesting
path, wrapping it in a fresh mapper when arbitrary sub-keys exist. -/
def VarMapper.resolve (v : VarMapper) (key0 : String) : Resolved :=
  let key := strToLower key0
  match List.lookup key v.substitutions with
  | some substitute => .str substitute
  | none =>
    let newPath : List String := if v.base ≠ "" then [v.base] else []
    match List.lookup key v.baseVars with
    | some (.vm m) =>
      if newPath.length > 0 then .vm (m.rebase (strJoin "." newPath)) else .vm m
    | some (.em extraAs path) => .em extraAs path
    | some (.str s) => .str (strJoin "." (newPath ++ [s]))
    | none =>
      let newPath2 := if v.arbitraryNesting ≠ "" then newPath ++ [v.arbitraryNesting] else newPath
      let newPath3 := newPath2 ++ [key]
      match v.arbitraryVars with
      | some av =>
        .vm ⟨[], strJoin "." newPath3, av.map (fun kv => (kv.1, MigValue.str kv.2)), "", none⟩
      | none => .str (strJoin "." newPath3)

/-- extraMapper.Resolve: append the key to the path, except that the legacy
identifier flow directly under extra reroutes to a parent-results mapper. -/
def extraResolve (extraAs : ExtraVarsMapping) (path key : String) : Resolved :=
  let newPath := (if path ≠ "" then [path] else []) ++ [key]
  if path == "" && key == "flow" then
    .vm ⟨[], "parent.results", [],  "",
      some [("category", "category_localized"), ("text", "input"), ("time", "created_on")]⟩
  else .em extraAs (strJoin "." newPath)

/-- One resolution step from an already-resolved value; a plain string
resolves no further. -/
def Resolved.resolveKey : Resolved → String → Option Resolved
  | .vm m, k => some (m.resolve k)
  | .em extraAs path, k => some (extraResolve extraAs path k)
  | .str _, _ => none

/-- The String method of each mapper: a varMapper renders as its default
substitution or its base; the extra mapper renders according to the
configured migration mode. -/
def Resolved.render : Resolved → String
  | .str s => s
  | .vm m =>
    match List.lookup "__default__" m.substitutions with
    | some sub => sub
    | none => m.base
  | .em .webhookJSON path => "run.webhook.json." ++ path
  | .em .triggerParams path => "trigger.params." ++ path
  | .em .function path =>
    "if(is_error(run.webhook.json." ++ path ++ "), trigger.params." ++ path ++
      ", run.webhook.json." ++ path ++ ")"

/-- The URN schemes recognized by the migrator (urns.ValidSchemes of the urns
library at this revision). -/
def validSchemes : List String :=
  ["ext", "facebook", "fcm", "jiochat", "line", "mailto", "tel", "telegram",
   "twitter", "viber", "whatsapp"]

/-- The per-scheme URN sub-mapper added under the contact mapper. -/
def urnSchemeMapper (scheme : String) : VarMapper :=
  ⟨[("__default__", "format_urn(contact.urns." ++ scheme ++ ")"),
    ("display", "format_urn(contact.urns." ++ scheme ++ ")"),
    ("scheme", "contact.urns." ++ scheme ++ ".0.scheme"),
    ("path", "contact.urns." ++ scheme ++ ".0.path"),
    ("urn", "contact.urns." ++ scheme ++ ".0")],
   "urns." ++ scheme, [], "", none⟩

/-- The contact mapper of newMigrationBaseVars. -/
def contactMapper : VarMapper :=
  ⟨[("groups", "join(contact.groups, \",\")")],
   "contact",
   [("uuid", .str "uuid"), ("id", .str "id"), ("name", .str "name"),
    ("first_name", .str "first_name"), ("language", .str "language"),
    ("tel_e164", .str "urns.tel.0.path")] ++
     validSchemes.map (fun scheme => (scheme, MigValue.vm (urnSchemeMapper scheme))),
   "fields", none⟩

/-- newMigrationBaseVars: the top-level mappers shared by every migration. -/
def migrationBaseVars : List (String × MigValue) :=
  [("contact", .vm contactMapper),
   ("flow", .vm ⟨[], "", [("contact", .vm contactMapper)], "run.results",
      some [("category", "category_localized"), ("text", "input"), ("time", "created_on")]⟩),
   ("parent", .vm ⟨[], "parent", [("contact", .vm contactMapper)], "results",
      some [("category", "category_localized")]⟩),
   ("child", .vm ⟨[], "child", [("contact", .vm contactMapper)], "results",
      some [("category", "category_localized")]⟩),
   ("step", .vm ⟨[("__default__", "run.input"), ("value", "run.input"),
      ("text", "run.input.text"), ("attachments", "run.input.attachments"),
      ("time", "run.input.created_on")], "", [("contact", .vm contactMapper)], "", none⟩),
   ("channel", .vm ⟨[("__default__", "contact.channel.address"),
      ("name", "contact.channel.name"), ("tel", "contact.channel.address"),
      ("tel_e164", "contact.channel.address")], "", [], "", none⟩),
   ("date", .vm ⟨[("__default__", "now()"), ("now", "now()"), ("today", "today()"),
      ("tomorrow", "datetime_add(today(), 1, \"D\")"),
      ("yesterday", "datetime_add(today(), -1, \"D\")")], "", [], "", none⟩)]

/-- newMigrationVarMapper: the root mapper for one flow, the shared base
mappers plus an extra mapper configured with the flow's migration mode. -/
def newMigrationVarMapper (extraAs : ExtraVarsMapping) : VarMapper :=
  ⟨[], "", migrationBaseVars ++ [("extra", MigValue.em extraAs "")], "", none⟩

/-- Resolution of a dotted reference: resolve each segment in turn starting
from the root mapper, then render the result; none when a plain string is
reached with segments left. -/
def migrateRef (root : VarMapper) (keys : List String) : Option String :=
  (keys.foldlM Resolved.resolveKey (Resolved.vm root)).map Resolved.render

/-- The closed set of legacy top-level identifiers
(expressions.ContextTopLevels). -/
def ContextTopLevels : List String :=
  ["channel", "child", "contact", "date", "extra", "flow", "parent", "step"]

/-- One character of a bare reference: a word character or a dot. -/
def isRefChar (c : Char) : Bool := isWordChar c || c == '.'

/-- Rewrites one bare reference: resolve it through the mapper tree when its
top-level identifier is recognized, otherwise leave it as written. -/
def migrateRefString (root : VarMapper) (ref : String) : String :=
  let parts := tokensAux (fun c => c ≠ '.') ref.data []
  if ContextTopLevels.contains (strToLower (parts.getD 0 "")) then
    match migrateRef root parts with
    | some out => out
    | none => ref
  else ref

/-- Modelled from the spec: the template scanner of the legacy migrator — a
literal at-at emits one at sign, an at sign followed by a word character
starts a bare reference (greedy over word characters and dots) which is
rewritten through the mapper tree, and everything else passes through.  The
fuel argument, the length of the input, bounds the recursion. -/
def migrateAux (root : VarMapper) : Nat → List Char → String
  | 0, _ => ""
  | _, [] => ""
  | fuel + 1, '@' :: rest =>
    match rest with
    | '@' :: rest2 => "@" ++ migrateAux root fuel rest2
    | c :: _ =>
      if isWordChar c then
        let refChars := rest.takeWhile isRefChar
        let rest3 := rest.drop refChars.length
        "@" ++ migrateRefString root (String.mk refChars) ++ migrateAux root fuel rest3
      else "@" ++ migrateAux root fuel rest
    | [] => "@"
  | fuel + 1, c :: rest => String.mk [c] ++ migrateAux root fuel rest

/-- Migrates one legacy template under the given extra migration mode. -/
def migrateTemplate (extraAs : ExtraVarsMapping) (s : String) : String :=
  migrateAux (newMigrationVarMapper extraAs) s.length s.data

/-! ## Waits (flows/waits/base.go) -/

/-- baseTimeoutWait: an optional timeout in seconds and the computed
timeout_on instant (nanoseconds since the epoch, UTC). -/
structure BaseTimeoutWait where
  timeout : Option Int
  timeoutOn : Option Int
deriving DecidableEq, Repr

/-- baseTimeoutWait.Begin: when a timeout is set, timeout_on becomes the
wait-start time plus the timeout; nowNs passes the value of time.Now. -/
def BaseTimeoutWait.begin (w : BaseTimeoutWait) (nowNs : Int) : BaseTimeoutWait :=
  match w.timeout with
  | some t => { w with timeoutOn := some (nowNs + t * nsPerSecond) }
  | none => w

/-! ## The set_contact_channel action (flows/actions/set_contact_channel.go) -/

/-- A channel reference held by the action. -/
structure ChannelReference where
  uuid : String
  name : String
deriving DecidableEq, Repr

/-- The contact snapshot fields relevant here. -/
structure Contact where
  uuid : String
  name : String
deriving DecidableEq, Repr

/-- The run state visible to an action: the contact and, standing for the
rest of the run, the named results and the status. -/
structure RunState where
  contact : Option Contact
  results : List (String × String)
  status : String
deriving DecidableEq, Repr

/-- The events this action can append. -/
inductive Event where
  | fatalError (msg : String)
  | contactChannelChanged (channel : ChannelReference)
deriving DecidableEq, Repr

/-- The set_contact_channel action. -/
structure SetContactChannelAction where
  channel : ChannelReference
deriving DecidableEq, Repr

/-- SetContactChannelAction.Execute: appends a fatal_error event when the
run has no contact, otherwise appends a contact_channel_changed event; the
run state is only read. -/
def SetContactChannelAction.execute (a : SetContactChannelAction) (run : RunState)
    (log : List Event) : RunState × List Event :=
  match run.contact with
  | none => (run, log ++ [Event.fatalError "can't execute action in session without a contact"])
  | some _ => (run, log ++ [Event.contactChannelChanged a.channel])

/-! ## Helper lemmas -/

/-- Text values convert to their own string. -/
theorem toXText_text (s : String) : toXText (.text s) = .ok s := rfl

/-- Integer-valued decimals convert to their integer. -/
theorem toInteger_fromInt (n : Int) : toInteger (.num (Decimal.fromInt n)) = .ok n := by
  simp [toInteger, toXNumber, Decimal.fromInt, Decimal.intPart, pow10]

/-- A string with a dot glued into the middle is never empty. -/
theorem append_dot_append_ne_empty (p k : String) : p ++ "." ++ k ≠ "" := by
  intro h
  have h2 := congrArg String.length h
  have hdot : ("." : String).length = 1 := rfl
  simp [String.length_append, hdot] at h2

/-- Joining with a dot after merging the first two segments is the same as
joining all segments. -/
theorem strJoin_dot_merge (a b : String) (t : List String) :
    strJoin "." ((a ++ "." ++ b) :: t) = a ++ "." ++ strJoin "." (b :: t) := by
  cases t with
  | nil => rfl
  | cons c t2 => simp [strJoin, String.append_assoc]

/-- Folding the extra mapper over further path segments only extends the
path, provided the path so far is nonempty (the flow reroute applies only
directly under extra). -/
theorem fold_extra_path (mode : ExtraVarsMapping) :
    ∀ (rest : List String) (p : String), p ≠ "" →
      List.foldlM Resolved.resolveKey (Resolved.em mode p) rest =
        some (Resolved.em mode (strJoin "." (p :: rest))) := by
  intro rest
  induction rest with
  | nil => intro p _; rfl
  | cons k t ih =>
    intro p hp
    have hstep : Resolved.resolveKey (Resolved.em mode p) k =
        some (Resolved.em mode (p ++ "." ++ k)) := by
      simp [Resolved.resolveKey, extraResolve, hp, strJoin]
    show (Resolved.resolveKey (Resolved.em mode p) k >>= fun r =>
        List.foldlM Resolved.resolveKey r t) = _
    rw [hstep]
    show List.foldlM Resolved.resolveKey (Resolved.em mode (p ++ "." ++ k)) t = _
    rw [ih (p ++ "." ++ k) (append_dot_append_ne_empty p k), strJoin_dot_merge]
    rfl

/-- Resolution of an extra reference whose first segment is a real key (not
the rerouted flow identifier): the whole dotted path lands in the extra
mapper and renders according to the migration mode. -/
theorem migrateRef_extra (mode : ExtraVarsMapping) (k : String) (rest : List String)
    (hflow : k ≠ "flow") (hne : k ≠ "") :
    migrateRef (newMigrationVarMapper mode) ("extra" :: k :: rest) =
      some (Resolved.render (.em mode (strJoin "." (k :: rest)))) := by
  have hstep : Resolved.resolveKey (Resolved.em mode "") k = some (Resolved.em mode k) := by
    simp [Resolved.resolveKey, extraResolve, hflow, strJoin]
  unfold migrateRef
  have h0 : List.foldlM Resolved.resolveKey
      (Resolved.vm (newMigrationVarMapper mode)) ("extra" :: k :: rest) =
      (Resolved.resolveKey (Resolved.em mode "") k >>= fun r =>
        List.foldlM Resolved.resolveKey r rest) := rfl
  rw [h0, hstep]
  show (List.foldlM Resolved.resolveKey (Resolved.em mode k) rest).map Resolved.render = _
  rw [fold_extra_path mode rest k hne]
  rfl

/-! ## Claim theorems -/

/-- C10: converting a text value to boolean yields false exactly when the
text is empty or equals "false" ignoring case; every other text, including
"0" and whitespace-only strings, converts to true. -/
theorem text_to_boolean_false_iff :
    (∀ s : String, XText.toXBoolean s = false ↔ (s = "" ∨ strToLower s = "false"))
    ∧ XText.toXBoolean "0" = true
    ∧ XText.toXBoolean " " = true
    ∧ XText.toXBoolean "FaLsE" = false := by
  refine ⟨fun s => ?_, rfl, rfl, rfl⟩
  unfold XText.toXBoolean
  cases h1 : (s == "") <;> cases h2 : (strToLower s == "false") <;> simp_all

/-- C5: default(test, fallback) returns the fallback exactly on the empty
values (nil, empty text, empty array) and on error values, and returns the
test unchanged on every other value. -/
theorem default_fallback_characterization :
    (∀ env : Environment, ∀ d : XValue, Default env .nil d = d)
    ∧ (∀ env : Environment, ∀ d : XValue, Default env (.text "") d = d)
    ∧ (∀ env : Environment, ∀ d : XValue, Default env (.arr []) d = d)
    ∧ (∀ env : Environment, ∀ m : String, ∀ d : XValue, Default env (.err m) d = d)
    ∧ (∀ env : Environment, ∀ test d : XValue,
        isEmpty test = false → isXError test = false → Default env test d = test) := by
  refine ⟨fun env d => rfl, fun env d => rfl, fun env d => rfl, fun env m d => rfl,
    fun env test d h1 h2 => ?_⟩
  simp [Default, h1, h2]

/-- C5 witness: a nonempty non-error text passes through default unchanged. -/
theorem default_fallback_characterization_witness :
    Default defaultEnv (.text "10") (.text "20") = .text "10" :=
  default_fallback_characterization.2.2.2.2 defaultEnv (.text "10") (.text "20") rfl rfl

/-- C8: beginning a wait that carries a timeout of t seconds sets its
timeout_on to the wait-start instant plus t seconds; beginning a wait with no
timeout leaves the wait, and so its timeout_on, unchanged. -/
theorem wait_begin_timeout_on :
    (∀ (w : BaseTimeoutWait) (nowNs t : Int), w.timeout = some t →
        (w.begin nowNs).timeoutOn = some (nowNs + t * nsPerSecond))
    ∧ (∀ (w : BaseTimeoutWait) (nowNs : Int), w.timeout = none → w.begin nowNs = w) := by
  constructor
  · intro w nowNs t h
    simp [BaseTimeoutWait.begin, h]
  · intro w nowNs h
    simp [BaseTimeoutWait.begin, h]

/-- C8 witness: a 300 second timeout beginning at a concrete instant. -/
theorem wait_begin_timeout_on_witness :
    (BaseTimeoutWait.begin ⟨some 300, none⟩ 1500000000000000000).timeoutOn =
      some (1500000000000000000 + 300 * nsPerSecond) :=
  wait_begin_timeout_on.1 ⟨some 300, none⟩ 1500000000000000000 300 rfl

/-- C9: executing the set_contact_channel action leaves the run state
unchanged and only appends one event to the log: a contact_channel_changed
event when a contact is present, a fatal_error event otherwise. -/
theorem set_contact_channel_execute_frame :
    ∀ (a : SetContactChannelAction) (run : RunState) (log : List Event),
      (a.execute run log).1 = run
      ∧ (run.contact = none → (a.execute run log).2 =
          log ++ [Event.fatalError "can't execute action in session without a contact"])
      ∧ (∀ c : Contact, run.contact = some c → (a.execute run log).2 =
          log ++ [Event.contactChannelChanged a.channel]) := by
  intro a run log
  refine ⟨?_, ?_, ?_⟩
  · cases h : run.contact <;> simp [SetContactChannelAction.execute, h]
  · intro h
    simp [SetContactChannelAction.execute, h]
  · intro c h
    simp [SetContactChannelAction.execute, h]

/-- C9 witness: with no contact the action appends exactly the fatal error
event. -/
theorem set_contact_channel_execute_frame_witness :
    (SetContactChannelAction.execute ⟨⟨"uuid1", "FB"⟩⟩ ⟨none, [], "active"⟩ []).2 =
      [Event.fatalError "can't execute action in session without a contact"] :=
  (set_contact_channel_execute_frame ⟨⟨"uuid1", "FB"⟩⟩ ⟨none, [], "active"⟩ []).2.1 rfl

/-- C1 counterexample: default called with an Error test returns the
fallback, which is not an Error value, so an Error argument to a function of
arity two does not always produce an Error result. -/
theorem error_propagation_counterexample :
    Default defaultEnv (.err "boom") (.text "fallback") = .text "fallback"
    ∧ isXError (Default defaultEnv (.err "boom") (.text "fallback")) = false := ⟨rfl, rfl⟩

/-- C1 amended: an Error argument in a converted position propagates with
its message preserved through the embedded functions of arity at least one,
except that if returns the selected branch unchanged (an Error in a branch
surfaces only when that branch is selected) and default returns the fallback
when its test is an Error. -/
theorem error_argument_propagation :
    (∀ (env : Environment) (m : String) (a1 a2 : XValue), If env (.err m) a1 a2 = .err m)
    ∧ (∀ (env : Environment) (a1 a2 : XValue), If env (.bool true) a1 a2 = a1)
    ∧ (∀ (env : Environment) (a1 a2 : XValue), If env (.bool false) a1 a2 = a2)
    ∧ (∀ (env : Environment) (m : String) (d : XValue), Default env (.err m) d = d)
    ∧ (∀ (env : Environment) (m : String) (r : XValue), WordSlice env [.err m, r] = .err m)
    ∧ (∀ (env : Environment) (m : String) (s : String),
        WordSlice env [.text s, .err m] = .err m)
    ∧ (∀ (env : Environment) (m : String) (a b : XValue),
        DateTimeFromParts env [.err m, a, b] = .err m)
    ∧ (∀ (env : Environment) (m : String) (a b : XValue),
        DateTimeDiff env [.err m, a, b] = .err m)
    ∧ (∀ (env : Environment) (m : String) (t : GoTime) (b : XValue),
        DateTimeDiff env [.dt t, .err m, b] = .err m)
    ∧ (∀ (env : Environment) (m : String), FormatNumber env [.err m] = .err m)
    ∧ (∀ (env : Environment) (m : String) (n : Decimal),
        FormatNumber env [.num n, .err m] = .err m) :=
  ⟨fun _env _m _a1 _a2 => rfl, fun _env _a1 _a2 => rfl, fun _env _b1 _b2 => rfl,
   fun _env _m _d => rfl, fun _env _m _r => rfl, fun _env _m _s => rfl,
   fun _env _m _a _b => rfl, fun _env _m _c _d => rfl, fun _env _m _t _b => rfl,
   fun _env _m => rfl, fun _env _m _n => rfl⟩

/-- C2: datetime_diff counts years and months by calendar components, turns
seconds, minutes and hours into nanosecond-duration quotients truncated
toward zero (Go integer division), and counts days and weeks by local civil
day numbers, independent of time-of-day; in particular the difference of
2017-01-17 and 2015-12-17 in years is 2, a span of minus one hour forty
minutes gives minus 1 hours, and two minutes across midnight give 1 day. -/
theorem datetime_diff_units :
    DateTimeDiff defaultEnv [.text "2017-01-17", .text "2015-12-17", .text "Y"] =
      .num (Decimal.fromInt 2)
    ∧ (∀ (env : Environment) (a b : GoTime), DateTimeDiff env [.dt a, .dt b, .text "Y"] =
        .num (Decimal.fromInt (a.year - b.year)))
    ∧ (∀ (env : Environment) (a b : GoTime), DateTimeDiff env [.dt a, .dt b, .text "M"] =
        .num (Decimal.fromInt ((a.month - b.month) + (a.year - b.year) * 12)))
    ∧ (∀ (env : Environment) (a b : GoTime), DateTimeDiff env [.dt a, .dt b, .text "s"] =
        .num (Decimal.fromInt (Int.tdiv (a.instantNs - b.instantNs) 1000000000)))
    ∧ (∀ (env : Environment) (a b : GoTime), DateTimeDiff env [.dt a, .dt b, .text "m"] =
        .num (Decimal.fromInt (Int.tdiv (a.instantNs - b.instantNs) 60000000000)))
    ∧ (∀ (env : Environment) (a b : GoTime), DateTimeDiff env [.dt a, .dt b, .text "h"] =
        .num (Decimal.fromInt (Int.tdiv (a.instantNs - b.instantNs) 3600000000000)))
    ∧ (∀ (env : Environment) (a b : GoTime), DateTimeDiff env [.dt a, .dt b, .text "D"] =
        .num (Decimal.fromInt (a.localDay - b.localDay)))
    ∧ (∀ (env : Environment) (a b : GoTime), DateTimeDiff env [.dt a, .dt b, .text "W"] =
        .num (Decimal.fromInt (Int.tdiv (a.localDay - b.localDay) 7)))
    ∧ DateTimeDiff defaultEnv
        [.dt (timeDate 2017 1 17 10 50 0 0 (-18000)),
         .dt (timeDate 2017 1 17 12 30 0 0 (-18000)), .text "h"] =
        .num (Decimal.fromInt (-1))
    ∧ DateTimeDiff defaultEnv
        [.dt (timeDate 2017 1 17 0 1 0 0 (-18000)),
         .dt (timeDate 2017 1 16 23 59 0 0 (-18000)), .text "D"] =
        .num (Decimal.fromInt 1) :=
  ⟨rfl, fun _env _a _b => rfl, fun _env _c _d => rfl, fun _env _e _f => rfl,
   fun _env _g _h => rfl, fun _env _i _j => rfl, fun _env _k _l => rfl,
   fun _env _p _q => rfl, rfl, rfl⟩

/-- C4 counterexample: under the trigger_params mode the reference
extra.flow migrates to parent.results, not to trigger.params.flow, because
the legacy identifier flow directly under extra reroutes to the
parent-results mapper. -/
theorem extra_flow_counterexample :
    migrateRef (newMigrationVarMapper .triggerParams) ["extra", "flow"] = some "parent.results"
    ∧ (some "parent.results" : Option String) ≠ some "trigger.params.flow" := by
  refine ⟨rfl, ?_⟩
  decide

/-- C4 amended: every legacy extra reference whose first path segment is a
nonempty identifier other than the rerouted flow key migrates according to
the configured mode — webhook_json to run.webhook.json, trigger_params to
trigger.params, and function to the is_error guard over both — and the
spec's template example migrates as stated. -/
theorem extra_migration_modes :
    (∀ (k : String) (rest : List String), k ≠ "flow" → k ≠ "" →
        migrateRef (newMigrationVarMapper .webhookJSON) ("extra" :: k :: rest) =
          some ("run.webhook.json." ++ strJoin "." (k :: rest)))
    ∧ (∀ (k : String) (rest : List String), k ≠ "flow" → k ≠ "" →
        migrateRef (newMigrationVarMapper .triggerParams) ("extra" :: k :: rest) =
          some ("trigger.params." ++ strJoin "." (k :: rest)))
    ∧ (∀ (k : String) (rest : List String), k ≠ "flow" → k ≠ "" →
        migrateRef (newMigrationVarMapper .function) ("extra" :: k :: rest) =
          some ("if(is_error(run.webhook.json." ++ strJoin "." (k :: rest) ++
            "), trigger.params." ++ strJoin "." (k :: rest) ++
            ", run.webhook.json." ++ strJoin "." (k :: rest) ++ ")"))
    ∧ migrateTemplate .triggerParams
        "Hello @contact.first_name, your @extra.coupon is ready" =
        "Hello @contact.first_name, your @trigger.params.coupon is ready" :=
  ⟨fun k rest h1 h2 => migrateRef_extra .webhookJSON k rest h1 h2,
   fun k rest h1 h2 => migrateRef_extra .triggerParams k rest h1 h2,
   fun k rest h1 h2 => migrateRef_extra .function k rest h1 h2,
   rfl⟩

/-- C4 witness: the coupon reference under the trigger_params mode. -/
theorem extra_migration_modes_witness :
    migrateRef (newMigrationVarMapper .triggerParams) ["extra", "coupon"] =
      some ("trigger.params." ++ strJoin "." ["coupon"]) :=
  extra_migration_modes.2.1 "coupon" [] (by decide) (by decide)

/-- The local civil day of a midnight-built date is the day count produced
by the calendar arithmetic itself: the zone offset used to build the instant
cancels when the local clock is read back. -/
theorem localDay_timeDate_midnight (y m d off : Int) :
    (timeDate y m d 0 0 0 0 off).localDay =
      daysFromCivil (y + Int.fdiv (m - 1) 12) (Int.fmod (m - 1) 12 + 1) 1 + (d - 1) := by
  set D := daysFromCivil (y + Int.fdiv (m - 1) 12) (Int.fmod (m - 1) 12 + 1) 1 + (d - 1) with hD
  show Int.fdiv ((((D * 86400 + 0 * 3600 + 0 * 60 + 0) * nsPerSecond + 0) - off * nsPerSecond)
      + off * nsPerSecond) nsPerDay = D
  have heq : ((((D * 86400 + 0 * 3600 + 0 * 60 + 0) * nsPerSecond + 0) - off * nsPerSecond)
      + off * nsPerSecond) = D * nsPerDay := by
    simp [nsPerSecond, nsPerMinute, nsPerHour, nsPerDay]
    ring
  rw [heq]
  exact Int.mul_fdiv_cancel D (by norm_num [nsPerDay, nsPerHour, nsPerMinute, nsPerSecond])

/-- C3: with integer arguments, datetime_from_parts errors exactly when the
month lies outside 1..12; in range it builds the date through Go time.Date,
so out-of-range days roll over — in particular year 2017, month 2, day 31
normalizes to March 3, 2017 in every environment timezone. -/
theorem datetime_from_parts_month_range :
    (∀ (env : Environment) (y m d : Int),
        isXError (DateTimeFromParts env
          [.num (Decimal.fromInt y), .num (Decimal.fromInt m), .num (Decimal.fromInt d)]) = true
        ↔ (m < 1 ∨ 12 < m))
    ∧ (∀ (env : Environment) (y m d : Int), 1 ≤ m → m ≤ 12 →
        DateTimeFromParts env
          [.num (Decimal.fromInt y), .num (Decimal.fromInt m), .num (Decimal.fromInt d)] =
          .dt (timeDate y m d 0 0 0 0 env.tzOffsetSecs))
    ∧ (∀ env : Environment, (timeDate 2017 2 31 0 0 0 0 env.tzOffsetSecs).civil = ⟨2017, 3, 3⟩)
    ∧ DateTimeFromParts defaultEnv [.num ⟨2017, 0⟩, .num ⟨2, 0⟩, .num ⟨31, 0⟩] =
        .dt (timeDate 2017 2 31 0 0 0 0 (-18000)) := by
  refine ⟨fun env y m d => ?_, fun env y m d h1 h2 => ?_, fun env => ?_, rfl⟩
  · by_cases h : m < 1 ∨ 12 < m
    · simp [DateTimeFromParts, toInteger_fromInt, h, isXError]
    · simp [DateTimeFromParts, toInteger_fromInt, h, isXError]
  · simp [DateTimeFromParts, toInteger_fromInt]
    omega
  · unfold GoTime.civil
    rw [localDay_timeDate_midnight]
    decide

/-- C3 witness: an in-range date built at the default environment. -/
theorem datetime_from_parts_month_range_witness :
    DateTimeFromParts defaultEnv
      [.num (Decimal.fromInt 2017), .num (Decimal.fromInt 1), .num (Decimal.fromInt 15)] =
      .dt (timeDate 2017 1 15 0 0 0 0 defaultEnv.tzOffsetSecs) :=
  datetime_from_parts_month_range.2.1 defaultEnv 2017 1 15 (by decide) (by decide)

/-- C6: format_number rejects a requested number of decimal places outside
0..9 and succeeds inside that range; with the defaults it prints 31337 as
"31,337.00" (two places, thousands separators), and with zero places and
commas off as "31337". -/
theorem format_number_places_and_output :
    (∀ (env : Environment) (n : Decimal) (p : Int), p < 0 ∨ 9 < p →
        isXError (FormatNumber env [.num n, .num (Decimal.fromInt p)]) = true)
    ∧ (∀ (env : Environment) (n : Decimal) (p : Int), 0 ≤ p → p ≤ 9 →
        isXError (FormatNumber env [.num n, .num (Decimal.fromInt p)]) = false)
    ∧ FormatNumber defaultEnv [.num ⟨31337, 0⟩] = .text "31,337.00"
    ∧ FormatNumber defaultEnv [.num ⟨31337, 0⟩, .num ⟨0, 0⟩, .bool false] = .text "31337"
    ∧ FormatNumber defaultEnv [.num ⟨31337, 0⟩, .num ⟨2, 0⟩, .bool true] = .text "31,337.00" := by
  refine ⟨fun env n p h => ?_, fun env n p h1 h2 => ?_, rfl, rfl, rfl⟩
  · simp [FormatNumber, toXNumber, toInteger_fromInt, isXError, h]
  · simp [FormatNumber, toXNumber, toInteger_fromInt, isXError]
    rw [if_neg (by omega)]

/-- C6 witness: ten places are rejected. -/
theorem format_number_places_and_output_witness :
    isXError (FormatNumber defaultEnv [.num ⟨1, 0⟩, .num (Decimal.fromInt 10)]) = true :=
  format_number_places_and_output.1 defaultEnv ⟨1, 0⟩ 10 (by decide)

/-- C7 counterexample: an end of zero is neither positive nor negative, and
word_slice then returns all words from start on, not the empty list of words
before index zero that the claim's reading predicts. -/
theorem word_slice_zero_end_counterexample :
    WordSlice defaultEnv [.text "bee cat dog", .num ⟨0, 0⟩, .num ⟨0, 0⟩] = .text "bee cat dog"
    ∧ XValue.text "bee cat dog" ≠ XValue.text "" := by
  refine ⟨rfl, ?_⟩
  simp

/-- C7 amended: for a start of at least zero, word_slice returns the words
from start up to but not including a greater end, and a non-positive end
(in particular the negative end of the claim, and the default) returns all
words from start onward; the spec's example slices "bee cat dog" from 1 with
end -1 to "cat dog". -/
theorem word_slice_slices_words :
    (∀ (env : Environment) (s : String) (start en : Int), 0 ≤ start → start < en →
        WordSlice env [.text s, .num (Decimal.fromInt start), .num (Decimal.fromInt en)] =
          .text (strJoin " " (((tokenizeString s).drop start.toNat).take (en - start).toNat)))
    ∧ (∀ (env : Environment) (s : String) (start en : Int), 0 ≤ start → en ≤ 0 →
        WordSlice env [.text s, .num (Decimal.fromInt start), .num (Decimal.fromInt en)] =
          .text (strJoin " " ((tokenizeString s).drop start.toNat)))
    ∧ WordSlice defaultEnv [.text "bee cat dog", .num ⟨1, 0⟩, .num ⟨-1, 0⟩] = .text "cat dog" := by
  refine ⟨fun env s start en h0 h1 => ?_, fun env s start en h0 h1 => ?_, rfl⟩
  · simp only [WordSlice, List.length_cons, List.length_nil, List.getD_cons_zero,
      List.getD_cons_succ, toXText_text, toInteger_fromInt]
    norm_num
    rw [if_neg (by omega), if_neg (by omega)]
    split_ifs with hA hB hC hD
    · rw [List.drop_eq_nil_of_le (by omega)]
      simp [strJoin]
    · rw [List.take_of_length_le (by simp [List.length_drop]; omega),
        List.take_of_length_le (by simp [List.length_drop]; omega)]
    · exfalso
      omega
    · rfl
    · exfalso
      omega
  · simp only [WordSlice, List.length_cons, List.length_nil, List.getD_cons_zero,
      List.getD_cons_succ, toXText_text, toInteger_fromInt]
    norm_num
    rw [if_neg (by omega), if_neg (by omega)]
    split_ifs <;>
      first
      | rfl
      | (exfalso; omega)
      | (rw [List.drop_eq_nil_of_le (by omega)]; simp [strJoin])

/-- C7 witness: slicing words 0 and 1 out of three words. -/
theorem word_slice_slices_words_witness :
    WordSlice defaultEnv [.text "bee cat dog", .num (Decimal.fromInt 0), .num (Decimal.fromInt 2)] =
      .text (strJoin " " (((tokenizeString "bee cat dog").drop (0 : Int).toNat).take
        ((2 : Int) - 0).toNat)) :=
  word_slice_slices_words.1 defaultEnv "bee cat dog" 0 2 (by decide) (by decide)
